import Mathlib

/-!
Shallow embedding of the edge-device application code of the
AIM325 wind-turbine workshop repository, together with proofs of the
specification testable properties.

The embedded code comes from the notebook
`lab/05 - End to End SageMaker Edge Manager AIM325 GreenGrass-GGv2.ipynb`:
the gRPC helper functions `list_models`, `load_model`, `unload_model`,
`predict`, `create_tensor`, `capture_data` and `write_to_shm`.

The simulator / wind-farm / over-the-air modules (`app/turbine.py`,
`app/windfarm.py`, `app/ota.py`, `app/simulator.py`) are referenced by the
notebooks but are not part of this repository source tree; the
definitions for them below are modelled from the specification text and
are marked `Modelled from the spec:` in their doc comments.
-/

namespace AIM325

/-! ## Data model for the edge agent protocol (agent.proto stubs) -/

/-- numpy dtypes that occur in the notebook code. -/
inductive DType where
  | f32
  | f64
  | i64
  deriving DecidableEq, Repr

/-- A numpy ndarray, modelled by its dtype, shape and raw byte buffer
(the result of `tobytes()`), each byte a `Nat < 256`. -/
structure NDArray where
  dtype : DType
  shape : List Nat
  bytes : List Nat
  deriving DecidableEq, Repr

/-- Models `x.astype(np.float32)`.  On a float32 array the semantic content
is unchanged; the bytewise IEEE conversion of other dtypes is floating-point
arithmetic and is abstracted by re-tagging the dtype (every claim below only
quantifies over float32 inputs or compares against this function itself). -/
def astypeF32 (a : NDArray) : NDArray :=
  { a with dtype := DType.f32 }

/-- Python `x.tobytes()`: the raw byte buffer of the array. -/
def NDArray.tobytes (a : NDArray) : List Nat := a.bytes

/-- The UTF-8 encoding of one character (code point to byte sequence). -/
def utf8EncodeChar (c : Char) : List Nat :=
  let n := c.toNat
  if n < 0x80 then [n]
  else if n < 0x800 then [0xC0 + n / 64, 0x80 + n % 64]
  else if n < 0x10000 then
    [0xE0 + n / 4096, 0x80 + (n / 64) % 64, 0x80 + n % 64]
  else
    [0xF0 + n / 262144, 0x80 + (n / 4096) % 64, 0x80 + (n / 64) % 64,
     0x80 + n % 64]

/-- The UTF-8 encoding of a string, as used by the tensor name encoding in `create_tensor`. -/
def encodeUtf8 (s : String) : List Nat :=
  s.data.foldr (fun c acc => utf8EncodeChar c ++ acc) []

/-- The protobuf enum value `agent.FLOAT32`. -/
def FLOAT32 : Nat := 0

/-- Protobuf `agent.TensorMetadata`: name (bytes), data type and shape. -/
structure TensorMetadata where
  name : List Nat
  data_type : Nat
  shape : List Nat
  deriving DecidableEq, Repr

/-- Protobuf `agent.SharedMemoryHandle`. -/
structure SharedMemoryHandle where
  offset : Nat
  segment_id : Nat
  deriving DecidableEq, Repr

/-- The payload of an `agent.Tensor`: either inline bytes (`byte_data`)
or a shared-memory handle. -/
inductive TensorPayload where
  | byteData (b : List Nat)
  | shm (h : SharedMemoryHandle)
  deriving DecidableEq, Repr

/-- Protobuf `agent.Tensor`. -/
structure Tensor where
  tensor_metadata : TensorMetadata
  payload : TensorPayload
  deriving DecidableEq, Repr

/-- One entry of a `ListModelsResponse`: model name plus input/output tensor
metadata, mirroring `m.name`, `m.input_tensor_metadatas`,
`m.output_tensor_metadatas`. -/
structure ModelInfo where
  name : String
  input_tensor_metadatas : List TensorMetadata
  output_tensor_metadatas : List TensorMetadata
  deriving DecidableEq, Repr

/-- Protobuf `agent.PredictRequest`: model name and input tensors. -/
structure PredictRequest where
  name : String
  tensors : List Tensor
  deriving DecidableEq, Repr

/-- Protobuf `agent.PredictResponse`: output tensors. -/
structure PredictResponse where
  tensors : List Tensor
  deriving DecidableEq, Repr

/-- Protobuf `agent.CaptureDataRequest`. -/
structure CaptureDataRequest where
  model_name : String
  capture_id : String
  input_tensors : List Tensor
  output_tensors : List Tensor
  deriving DecidableEq, Repr

/-- A remote procedure call issued to the edge agent, recorded so that we can
reason about which calls a helper makes. -/
inductive RpcCall where
  | listModels
  | loadModel (url : String) (name : String)
  | unloadModel (name : String)
  | predictRpc (req : PredictRequest)
  | captureData (req : CaptureDataRequest)
  deriving DecidableEq, Repr

/-- The environment: the externally running edge agent process, modelled by
its response to each request.  `Except.error msg` models the gRPC call
raising an exception with message `msg`. -/
structure Agent where
  listModelsR : Except String (List ModelInfo)
  loadModelR : String → String → Except String Unit
  unloadModelR : String → Except String Unit
  predictR : PredictRequest → Except String PredictResponse
  captureDataR : CaptureDataRequest → Except String Unit

/-! ## The gRPC helper functions of notebook 05

Each helper is embedded as a function of the agent environment returning its
Python result together with the list of RPC calls it issued, in order. -/

/-- The model map built by `list_models`:
a dict from each model name to its input and output tensor metadata.
A Python dict comprehension keeps the last entry for a duplicated key, so
lookup searches the reversed list. -/
def modelMapGet (ms : List ModelInfo) (name : String) : Option ModelInfo :=
  ms.reverse.find? (fun m => m.name = name)

/-- Python `list_models(cli)`: issues one ListModels RPC and returns the marshaled
model map (here: the raw model list, read through `modelMapGet`).  The
Python function has no try/except: an RPC failure propagates to the caller,
modelled by `Except.error`. -/
def list_models (cli : Agent) : Except String (List ModelInfo) × List RpcCall :=
  (cli.listModelsR, [RpcCall.listModels])

/-- Python `load_model(cli, model_name, model_path)`: builds a LoadModelRequest with
`url = model_path`, `name = model_name`, issues one LoadModel RPC and returns
the response; on exception prints and returns None. -/
def load_model (cli : Agent) (model_name : String) (model_path : String) :
    Option Unit × List RpcCall :=
  match cli.loadModelR model_path model_name with
  | Except.ok r => (some r, [RpcCall.loadModel model_path model_name])
  | Except.error _ => (none, [RpcCall.loadModel model_path model_name])

/-- Python `unload_model(cli, model_name)`: builds an UnLoadModelRequest, issues one
UnLoadModel RPC and returns the response; on exception prints and returns
None. -/
def unload_model (cli : Agent) (model_name : String) :
    Option Unit × List RpcCall :=
  match cli.unloadModelR model_name with
  | Except.ok r => (some r, [RpcCall.unloadModel model_name])
  | Except.error _ => (none, [RpcCall.unloadModel model_name])

/-- The `x` argument of `predict`: a numpy array when `shm=False`, a
shared-memory segment id (int) when `shm=True`. -/
inductive PredictArg where
  | arr (a : NDArray)
  | seg (id : Nat)
  deriving DecidableEq, Repr

/-- Marshals the input tensor payload of `predict`: with `shm` true the
argument must be a segment id (`tensor.shared_memory_handle`), otherwise it
must be an array (`tensor.byte_data = x.astype(np.float32).tobytes()`);
a mismatched argument raises in Python (`none` here, caught by the
surrounding try). -/
def predictPayload (x : PredictArg) (shm : Bool) : Option TensorPayload :=
  match shm, x with
  | true, PredictArg.seg id =>
      some (TensorPayload.shm { offset := 0, segment_id := id })
  | true, PredictArg.arr _ => none
  | false, PredictArg.arr a =>
      some (TensorPayload.byteData (astypeF32 a).tobytes)
  | false, PredictArg.seg _ => none

/-- The PredictRequest that `predict` constructs from the input metadata
`meta` of the loaded model: `req.name = model_name`, one tensor whose
metadata copies `meta.name`, `meta.data_type`, `meta.shape`. -/
def mkPredictRequest (model_name : String) (meta : TensorMetadata)
    (payload : TensorPayload) : PredictRequest :=
  { name := model_name
  , tensors := [{ tensor_metadata :=
                    { name := meta.name
                    , data_type := meta.data_type
                    , shape := meta.shape }
                , payload := payload }] }

/-- The `byte_data` field of a tensor; a tensor carrying a shared-memory
handle has the protobuf default empty byte string for `byte_data`. -/
def Tensor.byte_data (t : Tensor) : List Nat :=
  match t.payload with
  | TensorPayload.byteData b => b
  | TensorPayload.shm _ => []

/-- The output parse of `predict`:
`np.frombuffer(tensor.byte_data, dtype=np.float32).reshape(shape)`.
`frombuffer` raises unless the buffer length is a multiple of 4 (float32
itemsize); `reshape` raises unless the element count matches the shape
product. -/
def parseOutput (t : Tensor) : Option NDArray :=
  let b := t.byte_data
  if b.length % 4 = 0 ∧ b.length = 4 * (t.tensor_metadata.shape.prod) then
    some { dtype := DType.f32, shape := t.tensor_metadata.shape, bytes := b }
  else
    none

/-- Python `predict(cli, model_name, x, shm=False)`, embedded from the notebook:
inside a try/except it (1) calls `list_models`, (2) raises if the model is
absent from the map, (3) builds the request tensor from the model first
input metadata, (4) issues the Predict RPC, (5) parses the first response
tensor.  Every exception is caught, printed and turned into `None`. -/
def predict (cli : Agent) (model_name : String) (x : PredictArg)
    (shm : Bool) : Option NDArray × List RpcCall :=
  match cli.listModelsR with
  | Except.error _ => (none, [RpcCall.listModels])
  | Except.ok ms =>
    match modelMapGet ms model_name with
    | none => (none, [RpcCall.listModels])
    | some mi =>
      match mi.input_tensor_metadatas with
      | [] => (none, [RpcCall.listModels])
      | meta :: _ =>
        match predictPayload x shm with
        | none => (none, [RpcCall.listModels])
        | some payload =>
          let req := mkPredictRequest model_name meta payload
          match cli.predictR req with
          | Except.error _ =>
              (none, [RpcCall.listModels, RpcCall.predictRpc req])
          | Except.ok resp =>
            match mi.output_tensor_metadatas, resp.tensors with
            | _ :: _, t :: _ =>
                (parseOutput t, [RpcCall.listModels, RpcCall.predictRpc req])
            | _, _ => (none, [RpcCall.listModels, RpcCall.predictRpc req])

/-- Python `create_tensor(x, tensor_name)`: raises unless `x.dtype == np.float32`;
otherwise builds a tensor with `tensor_metadata.name` set to
the UTF-8 encoding of the tensor name, `data_type = agent.FLOAT32`, the array shape,
and `byte_data = x.tobytes()`. -/
def create_tensor (x : NDArray) (tensor_name : String) :
    Except String Tensor :=
  if x.dtype ≠ DType.f32 then
    Except.error "It only supports numpy float32 arrays for this tensor"
  else
    Except.ok
      { tensor_metadata :=
          { name := encodeUtf8 tensor_name
          , data_type := FLOAT32
          , shape := x.shape }
      , payload := TensorPayload.byteData x.tobytes }

/-- Python `capture_data(cli, model_name, input_tensor, output_tensor)`: inside a
try/except, builds a CaptureDataRequest (capture id from `uuid.uuid4()`,
passed in here), appends `create_tensor` of input and output, and issues one
CaptureData RPC.  The Python function has no return statement, so it returns
None on every path; `create_tensor` raising (non-float32 input) is caught
before any RPC is issued. -/
def capture_data (cli : Agent) (model_name : String)
    (input_tensor output_tensor : NDArray) (uid : String) :
    Option Unit × List RpcCall :=
  match create_tensor input_tensor "input" with
  | Except.error _ => (none, [])
  | Except.ok tin =>
    match create_tensor output_tensor "output" with
    | Except.error _ => (none, [])
    | Except.ok tout =>
      let req : CaptureDataRequest :=
        { model_name := model_name
        , capture_id := uid
        , input_tensors := [tin]
        , output_tensors := [tout] }
      match cli.captureDataR req with
      | Except.ok _ => (none, [RpcCall.captureData req])
      | Except.error _ => (none, [RpcCall.captureData req])

/-! ## Shared memory (`sysv_ipc` segment) and `write_to_shm` -/

/-- A System V shared-memory segment as used by the notebook: attachment
flag, permission mode, fixed size and current contents. -/
structure SharedMemory where
  attached : Bool
  mode : Nat
  size : Nat
  data : List Nat
  deriving DecidableEq, Repr

/-- The state of the segment at the moment `sm.write(...)` executes in
`write_to_shm`: detached if previously attached, mode set to `0o0600`,
then re-attached. -/
def shmPrepared (sm : SharedMemory) : SharedMemory :=
  let sm0 := if sm.attached then { sm with attached := false } else sm
  let sm1 := { sm0 with mode := 0o0600 }
  { sm1 with attached := true }

/-- Python `sm.write(b)`: writes `b` at offset 0, leaving any tail of the segment
beyond `b` unchanged; raises (None) if `b` does not fit in the segment. -/
def shmWrite (sm : SharedMemory) (b : List Nat) : Option SharedMemory :=
  if b.length ≤ sm.size then
    some { sm with data := b ++ sm.data.drop b.length }
  else
    none

/-- Python `write_to_shm(sm, payload)`: detaches if attached, sets mode read/write
(0o0600), attaches, writes `payload.astype(np.float32).tobytes()`, then sets
mode read-only (0o0400).  There is no try/except: a failed write propagates
(`none`). -/
def write_to_shm (sm : SharedMemory) (payload : NDArray) :
    Option SharedMemory :=
  match shmWrite (shmPrepared sm) (astypeF32 payload).tobytes with
  | none => none
  | some sm3 => some { sm3 with mode := 0o0400 }

/-! ## Ring buffer (spec-modelled)

`app/turbine.py` streams raw data through a fixed-capacity circular buffer;
that file is referenced by the notebooks but absent from this repository. -/

/-- Modelled from the spec: the fixed-capacity ring buffer owned by each
turbine (`app/turbine.py` is not in the source tree).  "Ring buffer:
fixed-capacity queue overwriting oldest entries on overflow"; data is kept
oldest-first. -/
structure RingBuffer (α : Type) where
  capacity : Nat
  data : List α
  deriving DecidableEq, Repr

/-- Modelled from the spec: appending a sample; when the buffer is full the
oldest entry is overwritten ("writes are overwrite-oldest").  Natural
subtraction makes the drop a no-op while the buffer is below capacity. -/
def RingBuffer.push {α : Type} (rb : RingBuffer α) (x : α) : RingBuffer α :=
  { rb with data := (rb.data ++ [x]).drop (rb.data.length + 1 - rb.capacity) }

/-- Pushing a whole list of samples in order. -/
def RingBuffer.pushMany {α : Type} (rb : RingBuffer α) (xs : List α) :
    RingBuffer α :=
  xs.foldl RingBuffer.push rb

/-- Modelled from the spec: the empty buffer a turbine starts with. -/
def RingBuffer.empty (α : Type) (cap : Nat) : RingBuffer α :=
  { capacity := cap, data := [] }

/-- The buffer after `n` ticks of the generator stream `s`: samples
`s 0, …, s (n-1)` pushed in order into an initially empty buffer of
capacity `cap`. -/
def tickBuffer {α : Type} (cap : Nat) (s : Nat → α) : Nat → RingBuffer α
  | 0 => RingBuffer.empty α cap
  | n + 1 => (tickBuffer cap s n).push (s n)

/-! ## Turbine simulator and fault injection (spec-modelled) -/

/-- Modelled from the spec: a virtual turbine of the simulator
(`app/turbine.py` / `app/simulator.py` are not in the source tree): an
identifier, one fault-injection boolean per channel, and the ring buffer of
generated samples.  A sample is a vector of per-channel readings, modelled
as `Nat → ℚ`. -/
structure Turbine where
  id : Nat
  faults : Nat → Bool
  buffer : RingBuffer (Nat → ℚ)

/-- Modelled from the spec: `inject_fault(turbine_id, channel)` "flips a
boolean used by the generator to add out-of-range noise to subsequent
samples".  Only the flag of the given channel is flipped; the buffer of
already-recorded samples is untouched. -/
def inject_fault (t : Turbine) (c : Nat) : Turbine :=
  { t with faults := fun c0 => if c0 = c then !(t.faults c0) else t.faults c0 }

/-- Modelled from the spec: the generated value of channel `chan` at tick
`tick`: the raw recorded trace value plus out-of-range noise when the
channel fault flag is set.  `raw` is the recorded trace, `noise` the
injected noise term. -/
def genChannel (raw noise : Nat → Nat → ℚ) (t : Turbine)
    (tick chan : Nat) : ℚ :=
  raw tick chan + (if t.faults chan then noise tick chan else 0)

/-! ## Wind farm controller: anomaly flagging (spec-modelled) -/

/-- Modelled from the spec: the controller "flags an anomaly when error
exceeds a fixed per-channel threshold" (`app/windfarm.py` is not in the
source tree).  The boundary case is resolved as strict: error exactly equal
to the threshold does not flag. -/
def flagsAnomaly (err thr : ℚ) : Bool :=
  decide (thr < err)

/-- Modelled from the spec: per-channel anomaly flags for a vector of
reconstruction errors against a vector of per-channel thresholds. -/
def anomalyFlags (errs thrs : List ℚ) : List Bool :=
  List.zipWith flagsAnomaly errs thrs

/-! ## Over-the-air listener state machine (spec-modelled) -/

/-- Modelled from the spec: a loaded model handle — "name + version + local
path of a loaded inference model" (`app/ota.py` is not in the source
tree). -/
structure ModelHandle where
  name : String
  version : String
  path : String
  deriving DecidableEq, Repr

/-- Modelled from the spec: the OTA listener phases
`Idle → Downloading → Swapping → Idle`. -/
inductive OtaPhase where
  | Idle
  | Downloading
  | Swapping
  deriving DecidableEq, Repr

/-- Modelled from the spec: the OTA listener state: current phase, the
set of simultaneously active model handles on the device (a list, so that
"at most one active" is a provable invariant rather than a typing artifact),
the pending handle being deployed, and the surfaced error events. -/
structure OtaState where
  phase : OtaPhase
  active : List ModelHandle
  pending : Option ModelHandle
  errors : List String
  deriving DecidableEq, Repr

/-- Modelled from the spec: events driving the OTA listener: an external
deployment message, download completion or failure, model load success or
failure. -/
inductive OtaEvent where
  | deployMsg (m : ModelHandle)
  | downloadComplete
  | downloadFailed (msg : String)
  | loadSuccess
  | loadFailed (msg : String)
  deriving DecidableEq, Repr

/-- Modelled from the spec: the OTA transition function.  "Transition
triggers: external deployment message → Downloading; download complete →
Swapping (unload old model, load new); load success → Idle.  On any download
or load failure, transition back to Idle and surface an error event."  The
spec requires that the swap be serialized so that no state has two active
versions and a load failure stays on the prior version ("model-load errors:
abort swap, stay on prior version, report"): the unload of the old handle
and the activation of the new one happen in the single `loadSuccess` step.
Events arriving in a phase that does not expect them are ignored. -/
def otaStep (s : OtaState) (e : OtaEvent) : OtaState :=
  match s.phase, e with
  | OtaPhase.Idle, OtaEvent.deployMsg m =>
      { s with phase := OtaPhase.Downloading, pending := some m }
  | OtaPhase.Downloading, OtaEvent.downloadComplete =>
      { s with phase := OtaPhase.Swapping }
  | OtaPhase.Downloading, OtaEvent.downloadFailed msg =>
      { s with phase := OtaPhase.Idle, pending := none
             , errors := s.errors ++ [msg] }
  | OtaPhase.Swapping, OtaEvent.loadSuccess =>
      { s with phase := OtaPhase.Idle
             , active := (match s.pending with
                          | some m => [m]
                          | none => s.active)
             , pending := none }
  | OtaPhase.Swapping, OtaEvent.loadFailed msg =>
      { s with phase := OtaPhase.Idle, pending := none
             , errors := s.errors ++ [msg] }
  | _, _ => s

/-- Modelled from the spec: the initial OTA state: idle, no model active
yet, nothing pending, no errors. -/
def otaInit : OtaState :=
  { phase := OtaPhase.Idle, active := [], pending := none, errors := [] }

/-- Running the OTA machine over a sequence of events. -/
def otaRun (s : OtaState) (es : List OtaEvent) : OtaState :=
  es.foldl otaStep s

/-! ## Helper lemmas -/

lemma push_data {α : Type} (rb : RingBuffer α) (x : α) :
    (rb.push x).data =
      (rb.data ++ [x]).drop (rb.data.length + 1 - rb.capacity) := rfl

lemma push_capacity {α : Type} (rb : RingBuffer α) (x : α) :
    (rb.push x).capacity = rb.capacity := rfl

lemma push_length_le {α : Type} (rb : RingBuffer α) (x : α) :
    (rb.push x).data.length ≤ rb.capacity := by
  simp only [push_data, List.length_drop, List.length_append,
    List.length_singleton]
  omega

lemma pushMany_cons {α : Type} (rb : RingBuffer α) (x : α) (xs : List α) :
    rb.pushMany (x :: xs) = (rb.push x).pushMany xs := rfl

lemma pushMany_capacity {α : Type} (rb : RingBuffer α) (xs : List α) :
    (rb.pushMany xs).capacity = rb.capacity := by
  induction xs generalizing rb with
  | nil => rfl
  | cons x xs ih =>
      rw [pushMany_cons, ih (rb.push x), push_capacity]

lemma pushMany_length_le {α : Type} (rb : RingBuffer α) (xs : List α)
    (h : rb.data.length ≤ rb.capacity) :
    (rb.pushMany xs).data.length ≤ rb.capacity := by
  induction xs generalizing rb with
  | nil => simpa [RingBuffer.pushMany] using h
  | cons x xs ih =>
      rw [pushMany_cons]
      have := ih (rb.push x) (by simpa [push_capacity] using push_length_le rb x)
      simpa [push_capacity] using this

lemma tickBuffer_capacity {α : Type} (cap : Nat) (s : Nat → α) (n : Nat) :
    (tickBuffer cap s n).capacity = cap := by
  induction n with
  | zero => rfl
  | succ n ih => simpa [tickBuffer, push_capacity] using ih

lemma tickBuffer_data {α : Type} (cap : Nat) (s : Nat → α) (n : Nat) :
    (tickBuffer cap s n).data = ((List.range n).map s).drop (n - cap) := by
  induction n with
  | zero => simp [tickBuffer, RingBuffer.empty]
  | succ n ih =>
      have hcap := tickBuffer_capacity cap s n
      rw [show tickBuffer cap s (n + 1) = (tickBuffer cap s n).push (s n) from
        rfl, push_data, ih, hcap]
      have hlen : (List.drop (n - cap) (List.map s (List.range n))).length =
          n - (n - cap) := by simp
      rw [hlen]
      have hle : n - cap ≤ ((List.range n).map s).length := by
        simp
      rw [← List.drop_append_of_le_length hle, List.drop_drop,
        List.range_succ, List.map_append]
      simp only [List.map_cons, List.map_nil]
      congr 1
      omega

lemma otaStep_active_le (s : OtaState) (e : OtaEvent)
    (h : s.active.length ≤ 1) : (otaStep s e).active.length ≤ 1 := by
  obtain ⟨ph, act, pend, errs⟩ := s
  cases ph <;> cases e <;> (try cases pend) <;> simp_all [otaStep]

lemma otaRun_cons (s : OtaState) (e : OtaEvent) (es : List OtaEvent) :
    otaRun s (e :: es) = otaRun (otaStep s e) es := rfl

lemma otaRun_active_le (es : List OtaEvent) (s : OtaState)
    (h : s.active.length ≤ 1) : (otaRun s es).active.length ≤ 1 := by
  induction es generalizing s with
  | nil => simpa [otaRun] using h
  | cons e es ih =>
      rw [otaRun_cons]
      exact ih (otaStep s e) (otaStep_active_le s e h)

lemma anomalyFlags_getD (errs thrs : List ℚ) (i : Nat)
    (he : i < errs.length) (ht : i < thrs.length) :
    (anomalyFlags errs thrs).getD i false =
      flagsAnomaly (errs.getD i 0) (thrs.getD i 0) := by
  have hz : i < (anomalyFlags errs thrs).length := by
    simp [anomalyFlags]; omega
  rw [List.getD_eq_getElem _ _ hz, List.getD_eq_getElem _ _ he,
    List.getD_eq_getElem _ _ ht]
  simp [anomalyFlags, List.getElem_zipWith]

/-! ## Claims -/

/-- C1: for a fixed trace of per-channel reconstruction errors and fixed
per-channel thresholds, the controller flags an anomaly on channel `i` iff
the error strictly exceeds the channel threshold; an error exactly equal
to the threshold does not flag. -/
theorem controller_flags_iff_error_exceeds (errs thrs : List ℚ) (i : Nat)
    (he : i < errs.length) (ht : i < thrs.length) :
    ((anomalyFlags errs thrs).getD i false = true ↔
        thrs.getD i 0 < errs.getD i 0) ∧
    (errs.getD i 0 = thrs.getD i 0 →
      (anomalyFlags errs thrs).getD i false = false) := by
  rw [anomalyFlags_getD errs thrs i he ht]
  constructor
  · simp [flagsAnomaly]
  · intro heq
    rw [heq]
    simp [flagsAnomaly]

/-- Witness for C1 at errors `[3]`, thresholds `[2]`, channel `0`. -/
theorem controller_flags_iff_error_exceeds_witness :
    (0 < ([(3 : ℚ)]).length ∧ 0 < ([(2 : ℚ)]).length) ∧
    (((anomalyFlags [(3 : ℚ)] [(2 : ℚ)]).getD 0 false = true ↔
        ([(2 : ℚ)]).getD 0 0 < ([(3 : ℚ)]).getD 0 0) ∧
     (([(3 : ℚ)]).getD 0 0 = ([(2 : ℚ)]).getD 0 0 →
        (anomalyFlags [(3 : ℚ)] [(2 : ℚ)]).getD 0 false = false)) :=
  ⟨⟨by decide, by decide⟩,
   controller_flags_iff_error_exceeds [3] [2] 0 (by decide) (by decide)⟩

/-- C2: once the tick count reaches the buffer capacity, a turbine ring
buffer holds exactly the most recent `capacity` samples of the generator
stream (the suffix of the sample list after dropping the `n - capacity`
oldest), and the buffer length never exceeds the fixed capacity after any
sequence of push operations. -/
theorem ring_buffer_holds_most_recent {α : Type} (cap n : Nat) (s : Nat → α)
    (h : cap ≤ n) :
    ((tickBuffer cap s n).data = ((List.range n).map s).drop (n - cap) ∧
     (tickBuffer cap s n).data.length = cap) ∧
    ∀ (rb : RingBuffer α) (xs : List α), rb.data.length ≤ rb.capacity →
      (rb.pushMany xs).data.length ≤ rb.capacity := by
  refine ⟨⟨tickBuffer_data cap s n, ?_⟩, ?_⟩
  · rw [tickBuffer_data]
    simp
    omega
  · intro rb xs hrb
    exact pushMany_length_le rb xs hrb

/-- Witness for C2 at capacity 2, 3 ticks of the identity stream. -/
theorem ring_buffer_holds_most_recent_witness :
    2 ≤ 3 ∧
    ((tickBuffer 2 (fun i => i) 3).data =
        ((List.range 3).map (fun i => i)).drop 1 ∧
     (tickBuffer 2 (fun i => i) 3).data.length = 2) :=
  ⟨by decide, (ring_buffer_holds_most_recent 2 3 (fun i => i) (by decide)).1⟩

/-- C3: every state of the OTA listener reachable from the initial state by
any sequence of deploy/download/load events has at most one active
ModelHandle, even mid-swap: the old version unload is serialized with the
new version activation, so no state has two simultaneously active model
versions. -/
theorem ota_at_most_one_active_model (es : List OtaEvent) :
    (otaRun otaInit es).active.length ≤ 1 :=
  otaRun_active_le es otaInit (by simp [otaInit])

/-- C4: an OTA update attempt whose download or model load fails transitions
the listener back to Idle, surfaces an error event, and leaves the
previously active model untouched (the active handle list is unchanged). -/
theorem ota_failure_idle_keeps_model (s : OtaState) (e : OtaEvent)
    (msg : String)
    (h : (s.phase = OtaPhase.Downloading ∧ e = OtaEvent.downloadFailed msg) ∨
         (s.phase = OtaPhase.Swapping ∧ e = OtaEvent.loadFailed msg)) :
    (otaStep s e).phase = OtaPhase.Idle ∧
    (otaStep s e).active = s.active ∧
    (otaStep s e).errors = s.errors ++ [msg] := by
  obtain ⟨ph, act, pend, errs⟩ := s
  rcases h with ⟨hp, he⟩ | ⟨hp, he⟩ <;> subst he <;>
    simp_all [otaStep]

/-- Witness for C4: a download failure from a Downloading state with model
1.0 active returns to Idle, keeps 1.0 active and records the error. -/
theorem ota_failure_idle_keeps_model_witness :
    (otaStep ⟨OtaPhase.Downloading, [⟨"m", "1.0", "/m/1.0"⟩],
        some ⟨"m", "2.0", "/m/2.0"⟩, []⟩
      (OtaEvent.downloadFailed "err")).phase = OtaPhase.Idle ∧
    (otaStep ⟨OtaPhase.Downloading, [⟨"m", "1.0", "/m/1.0"⟩],
        some ⟨"m", "2.0", "/m/2.0"⟩, []⟩
      (OtaEvent.downloadFailed "err")).active = [⟨"m", "1.0", "/m/1.0"⟩] ∧
    (otaStep ⟨OtaPhase.Downloading, [⟨"m", "1.0", "/m/1.0"⟩],
        some ⟨"m", "2.0", "/m/2.0"⟩, []⟩
      (OtaEvent.downloadFailed "err")).errors = [] ++ ["err"] :=
  ota_failure_idle_keeps_model _ _ "err" (Or.inl ⟨rfl, rfl⟩)

/-- C6: `inject_fault` on channel `c` affects generated samples only on
channel `c`, starting with the immediately next generated sample: every
other channel generated value is unchanged, the recorded buffer is
untouched, and (when the injected noise is nonzero) channel `c` next
value does change once the flag is flipped on. -/
theorem inject_fault_only_channel (raw noise : Nat → Nat → ℚ) (t : Turbine)
    (c tick c0 : Nat) (h : c0 ≠ c) :
    genChannel raw noise (inject_fault t c) tick c0 =
      genChannel raw noise t tick c0 ∧
    (inject_fault t c).buffer = t.buffer ∧
    (t.faults c = false → noise tick c ≠ 0 →
      genChannel raw noise (inject_fault t c) tick c ≠
        genChannel raw noise t tick c) := by
  refine ⟨?_, rfl, ?_⟩
  · simp [genChannel, inject_fault, h]
  · intro hf hn
    simpa [genChannel, inject_fault, hf] using hn

/-- Witness for C6: injecting a fault on channel 0 leaves channel 1 of the
next sample unchanged. -/
theorem inject_fault_only_channel_witness :
    (1 : Nat) ≠ 0 ∧
    genChannel (fun _ _ => 5) (fun _ _ => 100)
        (inject_fault ⟨0, fun _ => false, RingBuffer.empty (Nat → ℚ) 3⟩ 0)
        0 1 =
      genChannel (fun _ _ => 5) (fun _ _ => 100)
        ⟨0, fun _ => false, RingBuffer.empty (Nat → ℚ) 3⟩ 0 1 :=
  ⟨by decide,
   (inject_fault_only_channel (fun _ _ => 5) (fun _ _ => 100)
      ⟨0, fun _ => false, RingBuffer.empty (Nat → ℚ) 3⟩ 0 0 1 (by decide)).1⟩

lemma predict_loaded_eq (cli : Agent) (model_name : String) (x : PredictArg)
    (shm : Bool) (ms : List ModelInfo) (mi : ModelInfo)
    (meta : TensorMetadata) (rest : List TensorMetadata)
    (payload : TensorPayload)
    (hl : cli.listModelsR = Except.ok ms)
    (hm : modelMapGet ms model_name = some mi)
    (hin : mi.input_tensor_metadatas = meta :: rest)
    (hp : predictPayload x shm = some payload) :
    predict cli model_name x shm =
      match cli.predictR (mkPredictRequest model_name meta payload) with
      | Except.error _ =>
          (none, [RpcCall.listModels,
            RpcCall.predictRpc (mkPredictRequest model_name meta payload)])
      | Except.ok resp =>
          match mi.output_tensor_metadatas, resp.tensors with
          | _ :: _, t :: _ =>
              (parseOutput t, [RpcCall.listModels,
                RpcCall.predictRpc (mkPredictRequest model_name meta payload)])
          | _, _ =>
              (none, [RpcCall.listModels,
                RpcCall.predictRpc (mkPredictRequest model_name meta payload)])
    := by
  unfold predict
  rw [hl]
  dsimp only
  rw [hm]
  dsimp only
  rw [hin]
  dsimp only
  rw [hp]

/-- C5: `predict` catches every failure of the underlying agent calls and of
request/response marshaling inside its try/except, returning None instead of
propagating an exception: when the ListModels call fails; when, with the
model loaded, its input metadata list is empty or the input payload cannot
be marshaled; when the single Predict call actually issued fails; and when
the Predict response cannot be marshaled (no output metadata, no response
tensors, or a frombuffer/reshape parse failure) — in every such case
`predict` returns None, so one inference failure cannot crash the consuming
loop. -/
theorem predict_failure_returns_none (cli : Agent) (model_name : String)
    (x : PredictArg) (shm : Bool) :
    ((∃ e, cli.listModelsR = Except.error e) →
      (predict cli model_name x shm).fst = none) ∧
    (∀ ms mi, cli.listModelsR = Except.ok ms →
      modelMapGet ms model_name = some mi →
      mi.input_tensor_metadatas = [] →
      (predict cli model_name x shm).fst = none) ∧
    (∀ ms mi meta rest, cli.listModelsR = Except.ok ms →
      modelMapGet ms model_name = some mi →
      mi.input_tensor_metadatas = meta :: rest →
      predictPayload x shm = none →
      (predict cli model_name x shm).fst = none) ∧
    (∀ ms mi meta rest payload, cli.listModelsR = Except.ok ms →
      modelMapGet ms model_name = some mi →
      mi.input_tensor_metadatas = meta :: rest →
      predictPayload x shm = some payload →
      ((∃ e, cli.predictR (mkPredictRequest model_name meta payload) =
          Except.error e) →
        (predict cli model_name x shm).fst = none) ∧
      (∀ resp, cli.predictR (mkPredictRequest model_name meta payload) =
          Except.ok resp →
        (mi.output_tensor_metadatas = [] →
          (predict cli model_name x shm).fst = none) ∧
        (resp.tensors = [] →
          (predict cli model_name x shm).fst = none) ∧
        (∀ t ts, resp.tensors = t :: ts → parseOutput t = none →
          (predict cli model_name x shm).fst = none))) := by
  refine ⟨?_, ?_, ?_, ?_⟩
  · rintro ⟨e, he⟩
    unfold predict
    rw [he]
  · intro ms mi hl hm hin
    unfold predict
    rw [hl]
    dsimp only
    rw [hm]
    dsimp only
    rw [hin]
  · intro ms mi meta rest hl hm hin hp
    unfold predict
    rw [hl]
    dsimp only
    rw [hm]
    dsimp only
    rw [hin]
    dsimp only
    rw [hp]
  · intro ms mi meta rest payload hl hm hin hp
    have hkey := predict_loaded_eq cli model_name x shm ms mi meta rest
      payload hl hm hin hp
    constructor
    · rintro ⟨e, he⟩
      rw [hkey, he]
    · intro resp hr
      refine ⟨?_, ?_, ?_⟩
      · intro hout
        rw [hkey, hr]
        dsimp only
        rw [hout]
      · intro ht
        rw [hkey, hr]
        dsimp only
        cases hout2 : mi.output_tensor_metadatas with
        | nil => rfl
        | cons m0 ms0 =>
            rw [ht]
      · intro t ts ht hparse
        rw [hkey, hr]
        dsimp only
        cases hout2 : mi.output_tensor_metadatas with
        | nil => rfl
        | cons m0 ms0 =>
            rw [ht]
            dsimp only
            exact hparse

/-- A concrete agent whose every call raises a connectivity error. -/
def cliFail : Agent :=
  { listModelsR := Except.error "conn"
  , loadModelR := fun _ _ => Except.error "conn"
  , unloadModelR := fun _ => Except.error "conn"
  , predictR := fun _ => Except.error "conn"
  , captureDataR := fun _ => Except.error "conn" }

/-- A concrete agent with model `m` loaded whose Predict succeeds but
returns a response with no tensors (a response-marshaling failure). -/
def cliBadResp : Agent :=
  { listModelsR := Except.ok
      [{ name := "m"
       , input_tensor_metadatas := [{ name := [105], data_type := 0
                                    , shape := [1] }]
       , output_tensor_metadatas := [{ name := [105], data_type := 0
                                     , shape := [1] }] }]
  , loadModelR := fun _ _ => Except.ok ()
  , unloadModelR := fun _ => Except.ok ()
  , predictR := fun _ => Except.ok { tensors := [] }
  , captureDataR := fun _ => Except.ok () }

/-- Witness for C5: against `cliFail` (the agent call fails) and against
`cliBadResp` (the agent answers but the response cannot be marshaled),
`predict` returns None. -/
theorem predict_failure_returns_none_witness :
    ((∃ e, cliFail.listModelsR = Except.error e) ∧
      (predict cliFail "m" (PredictArg.seg 1) true).fst = none) ∧
    ((({ tensors := [] } : PredictResponse).tensors = []) ∧
      (predict cliBadResp "m"
        (PredictArg.arr ⟨DType.f32, [1], [1, 2, 3, 4]⟩) false).fst = none) :=
  ⟨⟨⟨"conn", rfl⟩,
    (predict_failure_returns_none cliFail "m" (PredictArg.seg 1) true).1
      ⟨"conn", rfl⟩⟩,
   ⟨rfl,
    (((predict_failure_returns_none cliBadResp "m"
          (PredictArg.arr ⟨DType.f32, [1], [1, 2, 3, 4]⟩) false).2.2.2
        [{ name := "m"
         , input_tensor_metadatas := [{ name := [105], data_type := 0
                                      , shape := [1] }]
         , output_tensor_metadatas := [{ name := [105], data_type := 0
                                       , shape := [1] }] }]
        { name := "m"
        , input_tensor_metadatas := [{ name := [105], data_type := 0
                                     , shape := [1] }]
        , output_tensor_metadatas := [{ name := [105], data_type := 0
                                      , shape := [1] }] }
        { name := [105], data_type := 0, shape := [1] } []
        (TensorPayload.byteData [1, 2, 3, 4])
        rfl rfl rfl rfl).2 { tensors := [] } rfl).2.1 rfl⟩⟩

/-- C8: when the agent model map does not contain the requested model
name, `predict` returns None having issued only the ListModels call: the
missing-model check precedes request construction, so no Predict RPC
reaches the agent. -/
theorem predict_missing_model_no_predict_rpc (cli : Agent)
    (model_name : String) (x : PredictArg) (shm : Bool)
    (ms : List ModelInfo)
    (hok : cli.listModelsR = Except.ok ms)
    (habs : modelMapGet ms model_name = none) :
    predict cli model_name x shm = (none, [RpcCall.listModels]) ∧
    ∀ req, RpcCall.predictRpc req ∉ (predict cli model_name x shm).snd := by
  have hmain : predict cli model_name x shm = (none, [RpcCall.listModels]) := by
    unfold predict
    rw [hok]
    dsimp only
    rw [habs]
  refine ⟨hmain, ?_⟩
  intro req
  rw [hmain]
  simp

/-- A concrete agent with no models loaded and every call succeeding. -/
def cliEmpty : Agent :=
  { listModelsR := Except.ok []
  , loadModelR := fun _ _ => Except.ok ()
  , unloadModelR := fun _ => Except.ok ()
  , predictR := fun _ => Except.ok { tensors := [] }
  , captureDataR := fun _ => Except.ok () }

/-- Witness for C8: predicting a never-loaded model against `cliEmpty`
returns None with only the ListModels call in the trace. -/
theorem predict_missing_model_no_predict_rpc_witness :
    cliEmpty.listModelsR = Except.ok [] ∧
    modelMapGet [] "m" = none ∧
    predict cliEmpty "m" (PredictArg.seg 1) true =
      (none, [RpcCall.listModels]) :=
  ⟨rfl, rfl,
   (predict_missing_model_no_predict_rpc cliEmpty "m" (PredictArg.seg 1)
      true [] rfl rfl).1⟩

/-- C9: `create_tensor` raises exactly when the array dtype is not
float32; on a float32 array it returns the tensor whose metadata name is
the UTF-8 encoding of the given tensor name, whose metadata shape is the
array shape, and whose byte data is the array raw bytes. -/
theorem create_tensor_raises_iff_not_float32 (x : NDArray) (nm : String) :
    ((∃ e, create_tensor x nm = Except.error e) ↔ x.dtype ≠ DType.f32) ∧
    (x.dtype = DType.f32 →
      create_tensor x nm = Except.ok
        { tensor_metadata :=
            { name := encodeUtf8 nm
            , data_type := FLOAT32
            , shape := x.shape }
        , payload := TensorPayload.byteData x.tobytes }) := by
  constructor
  · constructor
    · rintro ⟨e, he⟩ hf
      rw [create_tensor, if_neg (by simp [hf])] at he
      exact Except.noConfusion he
    · intro hne
      exact ⟨_, by rw [create_tensor, if_pos hne]⟩
  · intro hf
    rw [create_tensor, if_neg (by simp [hf])]

/-- Witness for C9 on a concrete float32 array. -/
theorem create_tensor_raises_iff_not_float32_witness :
    (⟨DType.f32, [1], [0, 0, 0, 0]⟩ : NDArray).dtype = DType.f32 ∧
    create_tensor ⟨DType.f32, [1], [0, 0, 0, 0]⟩ "t" = Except.ok
      { tensor_metadata :=
          { name := encodeUtf8 "t", data_type := FLOAT32, shape := [1] }
      , payload := TensorPayload.byteData [0, 0, 0, 0] } :=
  ⟨rfl,
   (create_tensor_raises_iff_not_float32 ⟨DType.f32, [1], [0, 0, 0, 0]⟩
      "t").2 rfl⟩

/-- C10 (amended): when the float32 payload bytes fill the segment,
`write_to_shm` returns a segment holding exactly
`payload.astype(float32).tobytes()`, with the mode set back to read-only
`0o0400`, the mode having been read/write `0o0600` in the prepared state in
which the write executes.  (The claim as stated, for every payload, fails
when the payload is shorter than the segment: the write leaves the old tail
in place — see the counterexample below.) -/
theorem write_to_shm_writes_payload_restores_mode (sm : SharedMemory)
    (payload : NDArray)
    (hlen : (astypeF32 payload).tobytes.length = sm.size)
    (hdata : sm.data.length = sm.size) :
    (shmPrepared sm).mode = 0o0600 ∧
    ∃ sm', write_to_shm sm payload = some sm' ∧
      sm'.data = (astypeF32 payload).tobytes ∧
      sm'.mode = 0o0400 ∧
      sm'.size = sm.size := by
  obtain ⟨att, mo, sz, da⟩ := sm
  have hsz : (shmPrepared ⟨att, mo, sz, da⟩).size = sz := by
    cases att <;> rfl
  have hda : (shmPrepared ⟨att, mo, sz, da⟩).data = da := by
    cases att <;> rfl
  have hmode : (shmPrepared ⟨att, mo, sz, da⟩).mode = 0o0600 := by
    cases att <;> rfl
  refine ⟨hmode, ?_⟩
  unfold write_to_shm shmWrite
  rw [if_pos (by rw [hsz]; exact Nat.le_of_eq hlen)]
  dsimp only
  refine ⟨_, rfl, ?_, rfl, hsz⟩
  rw [hda]
  have hnil : da.drop (astypeF32 payload).tobytes.length = [] :=
    List.drop_eq_nil_of_le (Nat.le_of_eq (hdata.trans hlen.symm))
  rw [hnil, List.append_nil]

/-- Witness for C10 on a concrete 4-byte segment and payload. -/
theorem write_to_shm_writes_payload_restores_mode_witness :
    ((astypeF32 ⟨DType.f32, [1], [1, 2, 3, 4]⟩).tobytes.length =
        (⟨false, 0o0400, 4, [9, 9, 9, 9]⟩ : SharedMemory).size ∧
     (⟨false, 0o0400, 4, [9, 9, 9, 9]⟩ : SharedMemory).data.length =
        (⟨false, 0o0400, 4, [9, 9, 9, 9]⟩ : SharedMemory).size) ∧
    ((shmPrepared ⟨false, 0o0400, 4, [9, 9, 9, 9]⟩).mode = 0o0600 ∧
     ∃ sm', write_to_shm ⟨false, 0o0400, 4, [9, 9, 9, 9]⟩
          ⟨DType.f32, [1], [1, 2, 3, 4]⟩ = some sm' ∧
        sm'.data = (astypeF32 ⟨DType.f32, [1], [1, 2, 3, 4]⟩).tobytes ∧
        sm'.mode = 0o0400 ∧
        sm'.size = (⟨false, 0o0400, 4, [9, 9, 9, 9]⟩ : SharedMemory).size) :=
  ⟨⟨rfl, rfl⟩,
   write_to_shm_writes_payload_restores_mode
     ⟨false, 0o0400, 4, [9, 9, 9, 9]⟩ ⟨DType.f32, [1], [1, 2, 3, 4]⟩ rfl rfl⟩

/-- C10 counterexample: a 4-byte float32 payload written into an 8-byte
segment leaves the old tail bytes in the segment, so after `write_to_shm`
returns the segment does not contain exactly the payload bytes. -/
theorem write_to_shm_short_payload_counterexample :
    write_to_shm ⟨false, 0o0400, 8, [9, 9, 9, 9, 9, 9, 9, 9]⟩
        ⟨DType.f32, [1], [1, 2, 3, 4]⟩ =
      some ⟨true, 0o0400, 8, [1, 2, 3, 4, 9, 9, 9, 9]⟩ ∧
    ([1, 2, 3, 4, 9, 9, 9, 9] : List Nat) ≠
      (astypeF32 ⟨DType.f32, [1], [1, 2, 3, 4]⟩).tobytes :=
  ⟨rfl, by decide⟩

/-! ## C7: the Edge Agent Client operations -/

/-- Input metadata of the concrete loaded model used below. -/
def metaIn : TensorMetadata :=
  { name := [105], data_type := 0, shape := [1] }

/-- A concrete agent with one loaded model `m` whose calls all succeed. -/
def cliOne : Agent :=
  { listModelsR := Except.ok
      [{ name := "m"
       , input_tensor_metadatas := [metaIn]
       , output_tensor_metadatas := [metaIn] }]
  , loadModelR := fun _ _ => Except.ok ()
  , unloadModelR := fun _ => Except.ok ()
  , predictR := fun _ => Except.ok
      { tensors := [{ tensor_metadata := metaIn
                    , payload := TensorPayload.byteData [1, 2, 3, 4] }] }
  , captureDataR := fun _ => Except.ok () }

/-- A concrete float32 array of four bytes. -/
def arrK : NDArray :=
  { dtype := DType.f32, shape := [1], bytes := [1, 2, 3, 4] }

/-- C7 counterexample: against the concrete agent `cliOne` with model `m`
loaded, `predict` issues two remote calls (ListModels then Predict), not
exactly one, and `capture_data` issues its CaptureData call but returns
None rather than the marshaled response — so not every operation is a
single-call pass-through that returns the response. -/
theorem edge_client_single_call_counterexample :
    (predict cliOne "m" (PredictArg.arr arrK) false).snd.length = 2 ∧
    (capture_data cliOne "m" arrK arrK "id").snd.length = 1 ∧
    (capture_data cliOne "m" arrK arrK "id").fst = none := by
  refine ⟨rfl, rfl, rfl⟩

/-- C7 (amended): each client operation only marshals requests and
responses, performing no inference itself: `list_models`, `load_model` and
`unload_model` issue exactly one RPC built from their arguments and return
the marshaled response; `predict` issues its ListModels lookup and then at
most one Predict RPC carrying the request built from its arguments;
`capture_data` issues at most one CaptureData RPC built from its arguments
and always returns None. -/
theorem edge_client_marshaling (cli : Agent) :
    ((list_models cli).snd = [RpcCall.listModels] ∧
     (list_models cli).fst = cli.listModelsR) ∧
    (∀ n p, (load_model cli n p).snd = [RpcCall.loadModel p n] ∧
       ∀ r, cli.loadModelR p n = Except.ok r →
         (load_model cli n p).fst = some r) ∧
    (∀ n, (unload_model cli n).snd = [RpcCall.unloadModel n] ∧
       ∀ r, cli.unloadModelR n = Except.ok r →
         (unload_model cli n).fst = some r) ∧
    (∀ n x shm, (predict cli n x shm).snd = [RpcCall.listModels] ∨
       ∃ req, (predict cli n x shm).snd =
           [RpcCall.listModels, RpcCall.predictRpc req] ∧ req.name = n) ∧
    (∀ n i o u, (capture_data cli n i o u).fst = none ∧
       ((capture_data cli n i o u).snd = [] ∨
        ∃ req, (capture_data cli n i o u).snd = [RpcCall.captureData req] ∧
          req.model_name = n ∧ req.capture_id = u)) := by
  refine ⟨⟨rfl, rfl⟩, ?_, ?_, ?_, ?_⟩
  · intro n p
    unfold load_model
    cases h : cli.loadModelR p n with
    | ok r =>
        exact ⟨rfl, fun r0 hr0 => by injection hr0 with h2; rw [h2]⟩
    | error e =>
        exact ⟨rfl, fun r0 hr0 => Except.noConfusion hr0⟩
  · intro n
    unfold unload_model
    cases h : cli.unloadModelR n with
    | ok r =>
        exact ⟨rfl, fun r0 hr0 => by injection hr0 with h2; rw [h2]⟩
    | error e =>
        exact ⟨rfl, fun r0 hr0 => Except.noConfusion hr0⟩
  · intro n x shm
    unfold predict
    cases hl : cli.listModelsR with
    | error e => exact Or.inl rfl
    | ok ms =>
        dsimp only
        cases hm : modelMapGet ms n with
        | none => exact Or.inl rfl
        | some mi =>
            dsimp only
            cases hin : mi.input_tensor_metadatas with
            | nil => exact Or.inl rfl
            | cons meta rest =>
                dsimp only
                cases hp : predictPayload x shm with
                | none => exact Or.inl rfl
                | some payload =>
                    dsimp only
                    cases hr : cli.predictR (mkPredictRequest n meta payload)
                      with
                    | error e =>
                        exact Or.inr ⟨mkPredictRequest n meta payload,
                          rfl, rfl⟩
                    | ok resp =>
                        dsimp only
                        refine Or.inr ⟨mkPredictRequest n meta payload,
                          ?_, rfl⟩
                        cases hout : mi.output_tensor_metadatas with
                        | nil => rfl
                        | cons m0 ms0 =>
                            cases ht : resp.tensors with
                            | nil => rfl
                            | cons t ts => rfl
  · intro n i o u
    unfold capture_data
    cases h1 : create_tensor i "input" with
    | error e => exact ⟨rfl, Or.inl rfl⟩
    | ok tin =>
        dsimp only
        cases h2 : create_tensor o "output" with
        | error e => exact ⟨rfl, Or.inl rfl⟩
        | ok tout =>
            dsimp only
            cases h3 : cli.captureDataR
                { model_name := n, capture_id := u
                , input_tensors := [tin], output_tensors := [tout] } with
            | ok r =>
                exact ⟨rfl, Or.inr ⟨_, rfl, rfl, rfl⟩⟩
            | error e =>
                exact ⟨rfl, Or.inr ⟨_, rfl, rfl, rfl⟩⟩

/-- Witness for C7 (amended): a successful load against `cliOne` returns
the agent response. -/
theorem edge_client_marshaling_witness :
    cliOne.loadModelR "/m/1.0" "m" = Except.ok () ∧
    (load_model cliOne "m" "/m/1.0").fst = some () :=
  ⟨rfl, ((edge_client_marshaling cliOne).2.1 "m" "/m/1.0").2 () rfl⟩

end AIM325
